import Mathlib

/-!
Shallow embedding of the `Database` façade from `src/database.rs` of the
Toruro-Index-Backend repository.

The Rust code is a thin data-access layer over a SQLite pool.  We model the
database state as lists of rows (one list per table, in insertion order,
matching SQLite's row order for unordered queries), and each `Database`
method as a pure function from the current state, its arguments, the current
time (the Rust code reads `current_time()`), and one boolean per SQL
statement saying whether the driver reports a failure for that statement.
`fetch_one` on an unordered `SELECT` is modelled as taking the first row of
the table (in row order) that satisfies the `WHERE` clause; `fetch_one`
returns an error both on a driver failure and when no row matches, which is
exactly how the Rust `match res` arms treat it.  Every method returns the
value the Rust method returns together with the post-state.
-/

namespace ToruroIndex

/-- Modelled from the spec: the `User` record (`src/models/user.rs` is not in
the sources).  §3 of the spec describes it as an identity row keyed by row id
and looked up by username or email; only those three columns are touched by
`src/database.rs`, so the model carries exactly them.  -/
structure User where
  user_id : Int
  username : String
  email : String
  deriving DecidableEq, Repr

/-- A row of `torrust_torrents`, per the columns named by the `INSERT` in
`insert_torrent_and_get_id` plus the `torrent_id` key (`TorrentListing`). -/
structure TorrentListing where
  torrent_id : Int
  uploader : String
  info_hash : String
  title : String
  category_id : Int
  description : String
  upload_date : Int
  file_size : Int
  seeders : Int
  leechers : Int
  deriving DecidableEq, Repr

/-- The `{torrent_id, info_hash}` projection returned by `get_all_torrent_ids`. -/
structure TorrentCompact where
  torrent_id : Int
  info_hash : String
  deriving DecidableEq, Repr

/-- The value returned by `get_valid_tracker_key` (`SELECT key, valid_until`). -/
structure TrackerKey where
  key : String
  valid_until : Int
  deriving DecidableEq, Repr

/-- A row of `torrust_tracker_keys`, per the `INSERT` in `issue_tracker_key`. -/
structure TrackerKeyRow where
  user_id : Int
  key : String
  valid_until : Int
  deriving DecidableEq, Repr

/-- A row of `torrust_categories` (`Category` in the Rust file). -/
structure Category where
  name : String
  deriving DecidableEq, Repr

/-- A row of `torrust_pages`, per the `INSERT` in `insert_page`. -/
structure Page where
  route : String
  title : String
  description : Option String
  creation_date : Int
  deriving DecidableEq, Repr

/-- The domain error type (`ServiceError` in `src/errors.rs`, not in the
sources; the three constructors used by `src/database.rs`). -/
inductive ServiceError where
  | TorrentNotFound
  | InternalServerError
  | PageAlreadyExists
  deriving DecidableEq, Repr

/-- The visible state of the SQLite database: one list of rows per table,
in row order. -/
structure DBState where
  users : List User
  torrents : List TorrentListing
  tracker_keys : List TrackerKeyRow
  categories : List Category
  pages : List Page
  deriving DecidableEq, Repr

/-- `SELECT * FROM torrust_users WHERE username = ?` + `fetch_one`;
`Ok(user) => Some(user), _ => None`. -/
def get_user_with_username (db : DBState) (username : String) (fail : Bool) :
    Option User × DBState :=
  (if fail then none else db.users.find? (fun u => u.username == username), db)

/-- `SELECT * FROM torrust_users WHERE email = ?` + `fetch_one`;
`Ok(user) => Some(user), _ => None`. -/
def get_user_with_email (db : DBState) (email : String) (fail : Bool) :
    Option User × DBState :=
  (if fail then none else db.users.find? (fun u => u.email == email), db)

/-- `DELETE FROM torrust_users WHERE rowid = ?`; the driver error is
propagated by `?`, the affected-row count is discarded (`let _res`), and
`Ok(())` is returned. -/
def delete_user (db : DBState) (user_id : Int) (fail : Bool) :
    Except Unit Unit × DBState :=
  if fail then (Except.error (), db)
  else (Except.ok (), { db with users := db.users.filter (fun u => u.user_id != user_id) })

/-- SQLite assigns the inserted row a fresh `torrent_id` (rowid): one larger
than the largest id present. -/
def freshTorrentId (torrents : List TorrentListing) : Int :=
  torrents.foldr (fun t m => max t.torrent_id m) 0 + 1

/-- `INSERT INTO torrust_torrents ... RETURNING torrent_id` + `fetch_one`;
the driver error is propagated by `?`, and `upload_date` is the current
time read inside the method. -/
def insert_torrent_and_get_id (db : DBState) (username info_hash title : String)
    (category_id : Int) (description : String) (file_size seeders leechers : Int)
    (now : Int) (fail : Bool) : Except Unit Int × DBState :=
  if fail then (Except.error (), db)
  else
    let id := freshTorrentId db.torrents
    (Except.ok id,
      { db with torrents := db.torrents ++
          [⟨id, username, info_hash, title, category_id, description, now,
            file_size, seeders, leechers⟩] })

/-- `SELECT * FROM torrust_torrents WHERE torrent_id = ?` + `fetch_one`;
`Ok(torrent) => Ok(torrent), _ => Err(ServiceError::TorrentNotFound)` —
every failure, a miss or a driver error, becomes `TorrentNotFound`. -/
def get_torrent_by_id (db : DBState) (torrent_id : Int) (fail : Bool) :
    Except ServiceError TorrentListing × DBState :=
  (if fail then Except.error ServiceError.TorrentNotFound
   else
     match db.torrents.find? (fun t => t.torrent_id == torrent_id) with
     | some t => Except.ok t
     | none => Except.error ServiceError.TorrentNotFound, db)

/-- `SELECT torrent_id, info_hash FROM torrust_torrents` + `fetch_all`;
`Ok(torrents) => Ok(torrents), Err(e) => Err(())`. -/
def get_all_torrent_ids (db : DBState) (fail : Bool) :
    Except Unit (List TorrentCompact) × DBState :=
  (if fail then Except.error ()
   else Except.ok (db.torrents.map (fun t => ⟨t.torrent_id, t.info_hash⟩)), db)

/-- The effect of the `UPDATE torrust_torrents SET seeders = $1,
leechers = $2 WHERE info_hash = $3` statement on a single row. -/
def updateCounts (info_hash : String) (seeders leechers : Int)
    (t : TorrentListing) : TorrentListing :=
  if t.info_hash == info_hash
  then { t with seeders := seeders, leechers := leechers } else t

/-- `UPDATE torrust_torrents SET seeders = $1, leechers = $2 WHERE
info_hash = $3`; `Ok(_) => Ok(()), _ => Err(())` — the affected-row count is
discarded and a failure carries no detail. -/
def update_tracker_info (db : DBState) (info_hash : String) (seeders leechers : Int)
    (fail : Bool) : Except Unit Unit × DBState :=
  if fail then (Except.error (), db)
  else (Except.ok (),
    { db with torrents := db.torrents.map (updateCounts info_hash seeders leechers) })

/-- The week of seconds the Rust method adds to the current time. -/
def WEEK : Int := 604800

/-- The `WHERE` clause of `get_valid_tracker_key`:
`user_id = $1 AND valid_until > $2` with `$2 = now + WEEK`. -/
def validKeyPred (user_id now : Int) (k : TrackerKeyRow) : Bool :=
  k.user_id == user_id && now + WEEK < k.valid_until

/-- `SELECT key, valid_until FROM torrust_tracker_keys WHERE user_id = $1 AND
valid_until > $2` with `$2 = current_time() + 604800` + `fetch_one`;
`Ok(tracker_key) => Some(tracker_key), _ => None`. -/
def get_valid_tracker_key (db : DBState) (user_id : Int) (now : Int) (fail : Bool) :
    Option TrackerKey × DBState :=
  (if fail then none
   else
     (db.tracker_keys.find? (validKeyPred user_id now)).map
       (fun k => ⟨k.key, k.valid_until⟩), db)

/-- `INSERT INTO torrust_tracker_keys (user_id, key, valid_until)`;
`Ok(_) => Ok(()), Err(_) => Err(ServiceError::InternalServerError)`. -/
def issue_tracker_key (db : DBState) (tracker_key : TrackerKey) (user_id : Int)
    (fail : Bool) : Except ServiceError Unit × DBState :=
  if fail then (Except.error ServiceError.InternalServerError, db)
  else (Except.ok (),
    { db with tracker_keys := db.tracker_keys ++
        [⟨user_id, tracker_key.key, tracker_key.valid_until⟩] })

/-- `SELECT name FROM torrust_categories WHERE name = ?` + `fetch_one`;
`Ok(v) => Some(v.name), Err(_) => None`. -/
def verify_category (db : DBState) (category : String) (fail : Bool) :
    Option String × DBState :=
  (if fail then none
   else (db.categories.find? (fun c => c.name == category)).map (fun c => c.name), db)

/-- `SELECT * FROM torrust_pages` + `fetch_all`; `Ok(v) => Some(v),
Err(_) => None`.  An empty table is a successful query returning no rows,
hence `some []`; only a driver failure yields `none`. -/
def get_pages (db : DBState) (fail : Bool) : Option (List Page) × DBState :=
  (if fail then none else some db.pages, db)

/-- `SELECT * FROM torrust_pages WHERE route=?` + `fetch_one`;
`Ok(v) => Some(v), Err(g) => None`. -/
def get_page_by_route (db : DBState) (route : String) (fail : Bool) :
    Option Page × DBState :=
  (if fail then none else db.pages.find? (fun p => p.route == route), db)

/-- `insert_page`: first `get_pages`; if it returns `Some(pages)` and some
listed page has the requested route, return `PageAlreadyExists` without
inserting.  Otherwise (including when the listing itself failed) run the
`INSERT INTO torrust_pages`, mapping `Ok(_) => Ok(())` and
`Err(_) => Err(ServiceError::InternalServerError)`.  `listFail` is the
listing statement's failure flag, `insertFail` the insert statement's. -/
def insert_page (db : DBState) (route title : String) (description : Option String)
    (now : Int) (listFail insertFail : Bool) : Except ServiceError Unit × DBState :=
  match (get_pages db listFail).1 with
  | some pages =>
    if pages.any (fun i => i.route == route) then
      (Except.error ServiceError.PageAlreadyExists, db)
    else if insertFail then (Except.error ServiceError.InternalServerError, db)
    else (Except.ok (),
      { db with pages := db.pages ++ [⟨route, title, description, now⟩] })
  | none =>
    if insertFail then (Except.error ServiceError.InternalServerError, db)
    else (Except.ok (),
      { db with pages := db.pages ++ [⟨route, title, description, now⟩] })

/-! ### Helper lemmas -/

/-- Every torrent id in the table is at most the running fold maximum. -/
theorem torrent_id_le_fold (ts : List TorrentListing) :
    ∀ t ∈ ts, t.torrent_id ≤ ts.foldr (fun t m => max t.torrent_id m) 0 := by
  induction ts with
  | nil => intro t ht; cases ht
  | cons a ts ih =>
    intro t ht
    rcases List.mem_cons.mp ht with h | h
    · subst h; exact le_max_left _ _
    · exact le_trans (ih t h) (le_max_right _ _)

/-- The freshly assigned torrent id differs from every id already present. -/
theorem freshTorrentId_not_mem (ts : List TorrentListing) :
    ∀ t ∈ ts, t.torrent_id ≠ freshTorrentId ts := by
  intro t ht
  have h := torrent_id_le_fold ts t ht
  unfold freshTorrentId
  omega

/-! ### Claims -/

/-- C2: for every user id, `get_valid_tracker_key` returns no key when every
key of that user has `valid_until` less than now + 604800; returns a key of
that user whose `valid_until` exceeds that threshold when one exists; and a
key expiring at or before now + one week is never returned. -/
theorem get_valid_tracker_key_spec (db : DBState) (uid now : Int) :
    ((∀ k ∈ db.tracker_keys, k.user_id = uid → k.valid_until < now + 604800) →
        (get_valid_tracker_key db uid now false).1 = none)
  ∧ ((∃ k ∈ db.tracker_keys, k.user_id = uid ∧ now + 604800 < k.valid_until) →
        ∃ k ∈ db.tracker_keys, k.user_id = uid ∧ now + 604800 < k.valid_until ∧
          (get_valid_tracker_key db uid now false).1 = some ⟨k.key, k.valid_until⟩)
  ∧ (∀ fail tk, (get_valid_tracker_key db uid now fail).1 = some tk →
        now + 604800 < tk.valid_until) := by
  refine ⟨?_, ?_, ?_⟩
  · intro hall
    have hnone : db.tracker_keys.find? (validKeyPred uid now) = none := by
      rw [List.find?_eq_none]
      intro k hk
      simp only [validKeyPred, WEEK, Bool.and_eq_true, beq_iff_eq,
        decide_eq_true_eq, not_and]
      intro hu
      have h := hall k hk hu
      omega
    simp [get_valid_tracker_key, hnone]
  · rintro ⟨k, hk, hu, hv⟩
    have hsome : (db.tracker_keys.find? (validKeyPred uid now)).isSome := by
      rw [List.find?_isSome]
      refine ⟨k, hk, ?_⟩
      simp only [validKeyPred, WEEK, Bool.and_eq_true, beq_iff_eq,
        decide_eq_true_eq]
      exact ⟨hu, hv⟩
    obtain ⟨k0, hfind⟩ := Option.isSome_iff_exists.mp hsome
    have hmem := List.mem_of_find?_eq_some hfind
    have hpred := List.find?_some hfind
    simp only [validKeyPred, WEEK, Bool.and_eq_true, beq_iff_eq,
      decide_eq_true_eq] at hpred
    exact ⟨k0, hmem, hpred.1, hpred.2, by simp [get_valid_tracker_key, hfind]⟩
  · intro fail tk htk
    cases fail with
    | true => simp [get_valid_tracker_key] at htk
    | false =>
      simp only [get_valid_tracker_key, Bool.false_eq_true, if_false,
        Option.map_eq_some'] at htk
      obtain ⟨k0, hfind, hco⟩ := htk
      have hpred := List.find?_some hfind
      simp only [validKeyPred, WEEK, Bool.and_eq_true, beq_iff_eq,
        decide_eq_true_eq] at hpred
      rw [← hco]
      exact hpred.2

/-- C2 witness: a concrete database on which the parts of
`get_valid_tracker_key_spec` are exercised. -/
theorem get_valid_tracker_key_spec_witness :
    (get_valid_tracker_key ⟨[], [], [⟨1, "k", 100⟩], [], []⟩ 1 0 false).1 = none
  ∧ (∃ k ∈ (DBState.mk [] [] [⟨1, "k", 700000⟩] [] []).tracker_keys,
        k.user_id = 1 ∧ (0 : Int) + 604800 < k.valid_until ∧
        (get_valid_tracker_key ⟨[], [], [⟨1, "k", 700000⟩], [], []⟩ 1 0 false).1
          = some ⟨k.key, k.valid_until⟩)
  ∧ ((0 : Int) + 604800 < 700000) := by
  refine ⟨?_, ?_, by norm_num⟩
  · exact (get_valid_tracker_key_spec ⟨[], [], [⟨1, "k", 100⟩], [], []⟩ 1 0).1
      (by intro k hk _; simp at hk; subst hk; norm_num)
  · exact (get_valid_tracker_key_spec ⟨[], [], [⟨1, "k", 700000⟩], [], []⟩ 1 0).2.1
      ⟨⟨1, "k", 700000⟩, by simp, rfl, by norm_num⟩

/-- C3 counterexample: on an empty page table a failed query returns `none`
while a successful query returns `some []`; the two outcomes differ, so the
claim that a failure collapses to the same empty result an empty table
produces is false. -/
theorem get_pages_collapse_counterexample :
    (get_pages ⟨[], [], [], [], []⟩ true).1 = none
  ∧ (get_pages ⟨[], [], [], [], []⟩ false).1 = some []
  ∧ ¬((get_pages ⟨[], [], [], [], []⟩ true).1
      = (get_pages ⟨[], [], [], [], []⟩ false).1) := by
  refine ⟨rfl, rfl, by simp [get_pages]⟩

/-- C3 (amended): a failed `get_pages` query collapses to `none` with no
error detail, while a successful query on an empty table returns `some []`;
the two outcomes differ, so a caller can distinguish "no pages" from
"query failed". -/
theorem get_pages_failure_is_none (db : DBState) :
    (get_pages db true).1 = none
  ∧ (get_pages db false).1 = some db.pages
  ∧ (db.pages = [] → (get_pages db true).1 ≠ (get_pages db false).1) := by
  refine ⟨rfl, rfl, ?_⟩
  intro _
  simp [get_pages]

/-- C3 witness: the amended theorem applied to the empty database. -/
theorem get_pages_failure_is_none_witness :
    (get_pages ⟨[], [], [], [], []⟩ true).1
      ≠ (get_pages ⟨[], [], [], [], []⟩ false).1 :=
  (get_pages_failure_is_none ⟨[], [], [], [], []⟩).2.2 rfl

/-- C1: with a successful page listing, `insert_page` rejects a route already
present among the listed pages with `PageAlreadyExists` and inserts nothing;
for a route not present it inserts, mapping an insert failure to
`InternalServerError`, and on success the page is retrievable by
`get_page_by_route` with that route. -/
theorem insert_page_pre_check_spec (db : DBState) (route title : String)
    (d : Option String) (now : Int) :
    ((∃ p ∈ db.pages, p.route = route) →
        insert_page db route title d now false true
            = (Except.error ServiceError.PageAlreadyExists, db)
      ∧ insert_page db route title d now false false
            = (Except.error ServiceError.PageAlreadyExists, db))
  ∧ ((∀ p ∈ db.pages, p.route ≠ route) →
        insert_page db route title d now false true
            = (Except.error ServiceError.InternalServerError, db)
      ∧ (insert_page db route title d now false false).1 = Except.ok ()
      ∧ (get_page_by_route (insert_page db route title d now false false).2
            route false).1 = some ⟨route, title, d, now⟩) := by
  constructor
  · rintro ⟨p, hp, hr⟩
    have hany : db.pages.any (fun i => i.route == route) = true :=
      List.any_eq_true.mpr ⟨p, hp, by simp [hr]⟩
    constructor <;> simp [insert_page, get_pages, hany]
  · intro hall
    have hany : db.pages.any (fun i => i.route == route) = false :=
      List.any_eq_false.mpr (fun p hp => by simpa using hall p hp)
    have hfnone : db.pages.find? (fun p => p.route == route) = none := by
      rw [List.find?_eq_none]
      intro p hp
      simpa using hall p hp
    refine ⟨by simp [insert_page, get_pages, hany], by simp [insert_page, get_pages, hany], ?_⟩
    simp [insert_page, get_pages, hany, get_page_by_route, List.find?_append, hfnone]

/-- A sample page and a database holding exactly that page, used as concrete
instances. -/
def samplePage : Page := ⟨"r", "t", none, 0⟩

/-- A database whose page table holds exactly `samplePage`. -/
def samplePageDB : DBState := ⟨[], [], [], [], [samplePage]⟩

/-- C1 witness: on `samplePageDB` the duplicate route "r" is rejected with
state unchanged, and the fresh route "new" is inserted and retrievable. -/
theorem insert_page_pre_check_spec_witness :
    insert_page samplePageDB "r" "t2" none 1 false false
      = (Except.error ServiceError.PageAlreadyExists, samplePageDB)
  ∧ (get_page_by_route
        (insert_page samplePageDB "new" "t2" none 1 false false).2 "new" false).1
      = some ⟨"new", "t2", none, 1⟩ := by
  constructor
  · exact ((insert_page_pre_check_spec samplePageDB "r" "t2" none 1).1
      ⟨samplePage, by simp [samplePageDB], rfl⟩).2
  · exact ((insert_page_pre_check_spec samplePageDB "new" "t2" none 1).2
      (by intro p hp; simp [samplePageDB] at hp; subst hp; decide)).2.2

/-- C4: inserting a torrent returns the newly assigned id, and
`get_torrent_by_id` with that id returns a record whose uploader, info hash,
title, category id, description, file size, seeder and leecher counts equal
the inserted values exactly. -/
theorem insert_torrent_roundtrip (db : DBState) (u ih ttl : String) (cid : Int)
    (d : String) (fs s l now : Int) :
    (insert_torrent_and_get_id db u ih ttl cid d fs s l now false).1
        = Except.ok (freshTorrentId db.torrents)
  ∧ (get_torrent_by_id (insert_torrent_and_get_id db u ih ttl cid d fs s l now false).2
        (freshTorrentId db.torrents) false).1
      = Except.ok ⟨freshTorrentId db.torrents, u, ih, ttl, cid, d, now, fs, s, l⟩ := by
  constructor
  · rfl
  · have hfnone : db.torrents.find?
        (fun t => t.torrent_id == freshTorrentId db.torrents) = none := by
      rw [List.find?_eq_none]
      intro t ht
      simpa using freshTorrentId_not_mem db.torrents t ht
    simp [insert_torrent_and_get_id, get_torrent_by_id, List.find?_append, hfnone]

/-- A sample torrent row used in concrete instances. -/
def sampleTorrent : TorrentListing := ⟨1, "alice", "h", "t", 2, "d", 3, 4, 5, 6⟩

/-- A database whose torrent table holds exactly `sampleTorrent`. -/
def sampleTorrentDB : DBState := ⟨[], [sampleTorrent], [], [], []⟩

/-- C5 counterexample: the row with id 1 exists, yet when the underlying
query fails `get_torrent_by_id` still returns `TorrentNotFound`; the "not
found" error is therefore not returned exactly when no row with the id
exists. -/
theorem get_torrent_by_id_fail_counterexample :
    sampleTorrent ∈ sampleTorrentDB.torrents ∧ sampleTorrent.torrent_id = 1
  ∧ (get_torrent_by_id sampleTorrentDB 1 true).1
      = Except.error ServiceError.TorrentNotFound :=
  ⟨by simp [sampleTorrentDB], rfl, rfl⟩

/-- C5 (amended): `get_torrent_by_id` returns the torrent record when a row
with that id exists and the query succeeds; it returns `TorrentNotFound`
when no row with that id exists; and a query failure also maps to
`TorrentNotFound`, so the error does not imply absence of the row. -/
theorem get_torrent_by_id_spec (db : DBState) (tid : Int) :
    ((∃ t ∈ db.torrents, t.torrent_id = tid) →
        ∃ t ∈ db.torrents, t.torrent_id = tid ∧
          (get_torrent_by_id db tid false).1 = Except.ok t)
  ∧ ((∀ t ∈ db.torrents, t.torrent_id ≠ tid) →
        (get_torrent_by_id db tid false).1 = Except.error ServiceError.TorrentNotFound)
  ∧ (get_torrent_by_id db tid true).1 = Except.error ServiceError.TorrentNotFound := by
  refine ⟨?_, ?_, rfl⟩
  · rintro ⟨t, ht, hid⟩
    have hsome : (db.torrents.find? (fun x => x.torrent_id == tid)).isSome := by
      rw [List.find?_isSome]
      exact ⟨t, ht, by simp [hid]⟩
    obtain ⟨t0, hfind⟩ := Option.isSome_iff_exists.mp hsome
    have hmem := List.mem_of_find?_eq_some hfind
    have hpred := List.find?_some hfind
    simp only [beq_iff_eq] at hpred
    exact ⟨t0, hmem, hpred, by simp [get_torrent_by_id, hfind]⟩
  · intro hall
    have hfnone : db.torrents.find? (fun x => x.torrent_id == tid) = none := by
      rw [List.find?_eq_none]
      intro t ht
      simpa using hall t ht
    simp [get_torrent_by_id, hfnone]

/-- C5 witness: the amended theorem applied to `sampleTorrentDB` at the
present id 1 and at the absent id 9. -/
theorem get_torrent_by_id_spec_witness :
    (∃ t ∈ sampleTorrentDB.torrents, t.torrent_id = 1 ∧
        (get_torrent_by_id sampleTorrentDB 1 false).1 = Except.ok t)
  ∧ (get_torrent_by_id sampleTorrentDB 9 false).1
      = Except.error ServiceError.TorrentNotFound := by
  constructor
  · exact (get_torrent_by_id_spec sampleTorrentDB 1).1
      ⟨sampleTorrent, by simp [sampleTorrentDB], rfl⟩
  · exact (get_torrent_by_id_spec sampleTorrentDB 9).2.1
      (by intro t ht; simp [sampleTorrentDB] at ht; subst ht; decide)

/-- C6 counterexample: two updates writing different seeder and leecher
counts through the matching info hash produce different database states, yet
`get_all_torrent_ids` returns the same output on both, so the new counts are
not visible through `get_all_torrent_ids` (it projects only torrent id and
info hash). -/
theorem update_tracker_info_counts_invisible :
    (update_tracker_info sampleTorrentDB "h" 5 1 false).2
      ≠ (update_tracker_info sampleTorrentDB "h" 7 2 false).2
  ∧ (get_all_torrent_ids (update_tracker_info sampleTorrentDB "h" 5 1 false).2 false).1
      = (get_all_torrent_ids (update_tracker_info sampleTorrentDB "h" 7 2 false).2 false).1 := by
  constructor
  · decide
  · rfl

/-- C6 (amended): `update_tracker_info` succeeds and makes the new seeder
and leecher counts visible to a subsequent `get_torrent_by_id`; a subsequent
`get_all_torrent_ids` returns the same output as before, since it projects
only torrent ids and info hashes; on an info hash matching no row it reports
success with the state unchanged (zero rows affected, no error surfaced);
and a query failure collapses to the detail-free unit error with the state
unchanged. -/
theorem update_tracker_info_spec (db : DBState) (ih : String) (s l : Int) :
    (update_tracker_info db ih s l false).1 = Except.ok ()
  ∧ (∀ tid t, db.torrents.find? (fun x => x.torrent_id == tid) = some t →
      t.info_hash = ih →
      (get_torrent_by_id (update_tracker_info db ih s l false).2 tid false).1
        = Except.ok { t with seeders := s, leechers := l })
  ∧ (get_all_torrent_ids (update_tracker_info db ih s l false).2 false).1
      = (get_all_torrent_ids db false).1
  ∧ ((∀ t ∈ db.torrents, t.info_hash ≠ ih) →
      update_tracker_info db ih s l false = (Except.ok (), db))
  ∧ update_tracker_info db ih s l true = (Except.error (), db) := by
  refine ⟨rfl, ?_, ?_, ?_, rfl⟩
  · intro tid t hfind hih
    have hcomp : ((fun x => x.torrent_id == tid) ∘ updateCounts ih s l)
        = fun x => x.torrent_id == tid := by
      funext x
      by_cases hx : x.info_hash == ih <;> simp [updateCounts, hx]
    have hupd : updateCounts ih s l t = { t with seeders := s, leechers := l } := by
      simp [updateCounts, hih]
    simp [get_torrent_by_id, update_tracker_info, List.find?_map, hcomp, hfind, hupd]
  · simp only [get_all_torrent_ids, update_tracker_info, Bool.false_eq_true,
      if_false, List.map_map]
    congr 1
    apply List.map_congr_left
    intro a _
    by_cases hx : a.info_hash == ih <;> simp [updateCounts, hx]
  · intro hall
    have hmap : db.torrents.map (updateCounts ih s l) = db.torrents := by
      have h1 : db.torrents.map (updateCounts ih s l) = db.torrents.map id :=
        List.map_congr_left (fun a ha => by
          have hx : (a.info_hash == ih) = false := by simpa using hall a ha
          simp [updateCounts, hx])
      simpa using h1
    simp [update_tracker_info, hmap]

/-- C6 witness: updating the sample torrent's counts through its info hash
"h" is visible to `get_torrent_by_id`, and updating through the absent
hash "x" succeeds leaving the database unchanged. -/
theorem update_tracker_info_spec_witness :
    (get_torrent_by_id (update_tracker_info sampleTorrentDB "h" 9 10 false).2 1 false).1
      = Except.ok { sampleTorrent with seeders := 9, leechers := 10 }
  ∧ update_tracker_info sampleTorrentDB "x" 9 10 false
      = (Except.ok (), sampleTorrentDB) := by
  constructor
  · exact (update_tracker_info_spec sampleTorrentDB "h" 9 10).2.1 1 sampleTorrent
      (by decide) rfl
  · exact (update_tracker_info_spec sampleTorrentDB "x" 9 10).2.2.2.1
      (by intro t ht; simp [sampleTorrentDB] at ht; subst ht; decide)

/-- C7: assuming the username and the email identify the user uniquely (the
spec assumes uniqueness without this layer enforcing it), after `delete_user`
with the user's id, `get_user_with_username` and `get_user_with_email` for
that user's username and email return empty. -/
theorem delete_user_then_lookups_empty (db : DBState) (u : User)
    (_hu : u ∈ db.users)
    (hname : ∀ v ∈ db.users, v.username = u.username → v.user_id = u.user_id)
    (hmail : ∀ v ∈ db.users, v.email = u.email → v.user_id = u.user_id) :
    (get_user_with_username (delete_user db u.user_id false).2 u.username false).1 = none
  ∧ (get_user_with_email (delete_user db u.user_id false).2 u.email false).1 = none := by
  constructor
  · have hfn : (db.users.filter (fun x => x.user_id != u.user_id)).find?
        (fun x => x.username == u.username) = none := by
      rw [List.find?_eq_none]
      intro v hv
      rw [List.mem_filter] at hv
      simp only [bne_iff_ne] at hv
      simp only [beq_iff_eq]
      exact fun heq => hv.2 (hname v hv.1 heq)
    simp [get_user_with_username, delete_user, hfn]
  · have hfn : (db.users.filter (fun x => x.user_id != u.user_id)).find?
        (fun x => x.email == u.email) = none := by
      rw [List.find?_eq_none]
      intro v hv
      rw [List.mem_filter] at hv
      simp only [bne_iff_ne] at hv
      simp only [beq_iff_eq]
      exact fun heq => hv.2 (hmail v hv.1 heq)
    simp [get_user_with_email, delete_user, hfn]

/-- C7 witness: deleting the only user of a one-user database empties both
lookups for that user's username and email. -/
theorem delete_user_then_lookups_empty_witness :
    (get_user_with_username
        (delete_user ⟨[⟨1, "a", "e"⟩], [], [], [], []⟩ 1 false).2 "a" false).1 = none
  ∧ (get_user_with_email
        (delete_user ⟨[⟨1, "a", "e"⟩], [], [], [], []⟩ 1 false).2 "e" false).1 = none :=
  delete_user_then_lookups_empty ⟨[⟨1, "a", "e"⟩], [], [], [], []⟩ ⟨1, "a", "e"⟩
    (by simp)
    (by intro v hv _; simp at hv; subst hv; rfl)
    (by intro v hv _; simp at hv; subst hv; rfl)

/-- C9: when the page listing inside `insert_page` fails, the duplicate-route
pre-check is skipped entirely: the call never returns `PageAlreadyExists`
and proceeds to the insert, so a run on `samplePageDB` with a failed listing
and a successful insert appends a second page with the already-present
route "r". -/
theorem insert_page_skips_check_on_listing_failure (db : DBState)
    (route title : String) (d : Option String) (now : Int) :
    (∀ insertFail, (insert_page db route title d now true insertFail).1
        = cond insertFail (Except.error ServiceError.InternalServerError) (Except.ok ()))
  ∧ (insert_page db route title d now true false).2.pages
      = db.pages ++ [⟨route, title, d, now⟩]
  ∧ (insert_page samplePageDB "r" "t2" none 1 true false).1 = Except.ok ()
  ∧ ((insert_page samplePageDB "r" "t2" none 1 true false).2.pages.filter
        (fun p => p.route == "r")).length = 2 := by
  refine ⟨?_, rfl, rfl, by decide⟩
  intro insertFail
  cases insertFail <;> rfl

/-- C10: `delete_user` returns success even when no user row with the given
id exists (the affected-row count is discarded), and only an underlying
query failure is propagated as an error. -/
theorem delete_user_ignores_row_count (db : DBState) (uid : Int) :
    (delete_user db uid false).1 = Except.ok ()
  ∧ ((∀ v ∈ db.users, v.user_id ≠ uid) → delete_user db uid false = (Except.ok (), db))
  ∧ delete_user db uid true = (Except.error (), db) := by
  refine ⟨rfl, ?_, rfl⟩
  intro hall
  have hfil : db.users.filter (fun u => u.user_id != uid) = db.users := by
    rw [List.filter_eq_self]
    intro v hv
    simpa [bne_iff_ne] using hall v hv
  simp [delete_user, hfil]

/-- C10 witness: deleting from a database whose only user has id 2 with
id 1 succeeds and changes nothing. -/
theorem delete_user_ignores_row_count_witness :
    delete_user ⟨[⟨2, "u", "e"⟩], [], [], [], []⟩ 1 false
      = (Except.ok (), ⟨[⟨2, "u", "e"⟩], [], [], [], []⟩) :=
  (delete_user_ignores_row_count ⟨[⟨2, "u", "e"⟩], [], [], [], []⟩ 1).2.1
    (by intro v hv; simp at hv; subst hv; norm_num)

/-- The state after `insert_page` is either unchanged or has exactly the new
page appended to the page table. -/
theorem insert_page_state (db : DBState) (route ttl : String) (d : Option String)
    (now : Int) (lf inf2 : Bool) :
    (insert_page db route ttl d now lf inf2).2 = db
  ∨ (insert_page db route ttl d now lf inf2).2
      = { db with pages := db.pages ++ [⟨route, ttl, d, now⟩] } := by
  unfold insert_page get_pages
  cases lf
  · by_cases hany : db.pages.any (fun i => i.route == route) = true
    · left; simp [hany]
    · rw [Bool.not_eq_true] at hany
      cases inf2
      · right; simp [hany]
      · left; simp [hany]
  · cases inf2
    · right; simp
    · left; simp

/-- A mixed sample database used by concrete frame-condition instances. -/
def sampleDB : DBState :=
  ⟨[⟨1, "a", "e"⟩], [sampleTorrent], [⟨1, "k", 700000⟩], [⟨"c"⟩], [samplePage]⟩

/-- C8: frame conditions of the façade.  Every read returns the state
unchanged; the three inserts keep all existing rows (the untouched tables
are equal and the extended table keeps the old rows as a prefix);
`update_tracker_info` touches only the torrent table, preserving every field
of every row except the seeder and leecher counts of rows whose info hash
matches (rows with a different hash are fully unchanged); and `delete_user`
touches only the user table, removing exactly the rows carrying the given
id. -/
theorem database_frame_conditions (db : DBState)
    (uname mail cat route ttl key u ih dsc : String) (d : Option String)
    (uid tid cid fs s l now vu : Int) (fail listFail : Bool) :
    (get_user_with_username db uname fail).2 = db
  ∧ (get_user_with_email db mail fail).2 = db
  ∧ (get_torrent_by_id db tid fail).2 = db
  ∧ (get_all_torrent_ids db fail).2 = db
  ∧ (get_valid_tracker_key db uid now fail).2 = db
  ∧ (verify_category db cat fail).2 = db
  ∧ (get_pages db fail).2 = db
  ∧ (get_page_by_route db route fail).2 = db
  ∧ ((insert_torrent_and_get_id db u ih ttl cid dsc fs s l now fail).2.users = db.users
    ∧ (insert_torrent_and_get_id db u ih ttl cid dsc fs s l now fail).2.tracker_keys
        = db.tracker_keys
    ∧ (insert_torrent_and_get_id db u ih ttl cid dsc fs s l now fail).2.categories
        = db.categories
    ∧ (insert_torrent_and_get_id db u ih ttl cid dsc fs s l now fail).2.pages = db.pages
    ∧ db.torrents <+: (insert_torrent_and_get_id db u ih ttl cid dsc fs s l now fail).2.torrents)
  ∧ ((issue_tracker_key db ⟨key, vu⟩ uid fail).2.users = db.users
    ∧ (issue_tracker_key db ⟨key, vu⟩ uid fail).2.torrents = db.torrents
    ∧ (issue_tracker_key db ⟨key, vu⟩ uid fail).2.categories = db.categories
    ∧ (issue_tracker_key db ⟨key, vu⟩ uid fail).2.pages = db.pages
    ∧ db.tracker_keys <+: (issue_tracker_key db ⟨key, vu⟩ uid fail).2.tracker_keys)
  ∧ ((insert_page db route ttl d now listFail fail).2.users = db.users
    ∧ (insert_page db route ttl d now listFail fail).2.torrents = db.torrents
    ∧ (insert_page db route ttl d now listFail fail).2.tracker_keys = db.tracker_keys
    ∧ (insert_page db route ttl d now listFail fail).2.categories = db.categories
    ∧ db.pages <+: (insert_page db route ttl d now listFail fail).2.pages)
  ∧ ((update_tracker_info db ih s l fail).2.users = db.users
    ∧ (update_tracker_info db ih s l fail).2.tracker_keys = db.tracker_keys
    ∧ (update_tracker_info db ih s l fail).2.categories = db.categories
    ∧ (update_tracker_info db ih s l fail).2.pages = db.pages
    ∧ (update_tracker_info db ih s l true).2 = db
    ∧ List.Forall₂ (fun told tnew =>
          tnew.torrent_id = told.torrent_id ∧ tnew.uploader = told.uploader
        ∧ tnew.info_hash = told.info_hash ∧ tnew.title = told.title
        ∧ tnew.category_id = told.category_id ∧ tnew.description = told.description
        ∧ tnew.upload_date = told.upload_date ∧ tnew.file_size = told.file_size
        ∧ (told.info_hash ≠ ih → tnew = told)
        ∧ (told.info_hash = ih → tnew.seeders = s ∧ tnew.leechers = l))
        db.torrents (update_tracker_info db ih s l false).2.torrents)
  ∧ ((delete_user db uid fail).2.torrents = db.torrents
    ∧ (delete_user db uid fail).2.tracker_keys = db.tracker_keys
    ∧ (delete_user db uid fail).2.categories = db.categories
    ∧ (delete_user db uid fail).2.pages = db.pages
    ∧ (delete_user db uid true).2 = db
    ∧ (∀ v ∈ (delete_user db uid false).2.users, v ∈ db.users ∧ v.user_id ≠ uid)
    ∧ (∀ v ∈ db.users, v.user_id ≠ uid → v ∈ (delete_user db uid false).2.users)) := by
  refine ⟨rfl, rfl, rfl, rfl, rfl, rfl, rfl, rfl, ?_, ?_, ?_, ?_, ?_⟩
  · cases fail
    · exact ⟨rfl, rfl, rfl, rfl, List.prefix_append _ _⟩
    · exact ⟨rfl, rfl, rfl, rfl, List.prefix_refl _⟩
  · cases fail
    · exact ⟨rfl, rfl, rfl, rfl, List.prefix_append _ _⟩
    · exact ⟨rfl, rfl, rfl, rfl, List.prefix_refl _⟩
  · rcases insert_page_state db route ttl d now listFail fail with h | h <;> rw [h]
    · exact ⟨rfl, rfl, rfl, rfl, List.prefix_refl _⟩
    · exact ⟨rfl, rfl, rfl, rfl, List.prefix_append _ _⟩
  · refine ⟨?_, ?_, ?_, ?_, rfl, ?_⟩
    · cases fail <;> rfl
    · cases fail <;> rfl
    · cases fail <;> rfl
    · cases fail <;> rfl
    · have hmap : (update_tracker_info db ih s l false).2.torrents
          = db.torrents.map (updateCounts ih s l) := rfl
      rw [hmap, List.forall₂_map_right_iff, List.forall₂_same]
      intro x hx
      by_cases hx2 : x.info_hash = ih
      · simp [updateCounts, hx2]
      · have hx3 : (x.info_hash == ih) = false := by simpa using hx2
        simp [updateCounts, hx3, hx2]
  · refine ⟨?_, ?_, ?_, ?_, rfl, ?_, ?_⟩
    · cases fail <;> rfl
    · cases fail <;> rfl
    · cases fail <;> rfl
    · cases fail <;> rfl
    · intro v hv
      have hv2 : v ∈ db.users.filter (fun x => x.user_id != uid) := hv
      rw [List.mem_filter] at hv2
      exact ⟨hv2.1, by simpa [bne_iff_ne] using hv2.2⟩
    · intro v hv hne
      show v ∈ db.users.filter (fun x => x.user_id != uid)
      rw [List.mem_filter]
      exact ⟨hv, by simpa [bne_iff_ne] using hne⟩

/-- C8 witness: the frame conditions applied to the mixed sample database:
a failed `get_pages` leaves the state unchanged, deleting the absent user id
2 keeps the torrent table, and keeps the existing user row with id 1. -/
theorem database_frame_conditions_witness :
    (get_pages sampleDB true).2 = sampleDB
  ∧ (delete_user sampleDB 2 false).2.torrents = sampleDB.torrents
  ∧ (⟨1, "a", "e"⟩ : User) ∈ (delete_user sampleDB 2 false).2.users := by
  have h := database_frame_conditions sampleDB "a" "e" "c" "r" "t" "k" "u" "h" "d"
    none 2 1 2 4 5 6 0 700000 false false
  obtain ⟨_, _, _, _, _, _, r7, _, _, _, _, _, hdel⟩ := h
  obtain ⟨d1, _, _, _, _, _, d7⟩ := hdel
  exact ⟨r7, d1, d7 ⟨1, "a", "e"⟩ (by simp [sampleDB]) (by decide)⟩

end ToruroIndex
